import Mathlib

/-!
# Verification of the overdose-dashboard application

A shallow embedding of the two React source files of the repository
(`src/src/App.jsx` with the authentication gate, and the unnamed session
variant with the drug-selection filter) together with proofs about the
derived view state: filtering, totals, the chart y-scale and the
authentication error handling.

Each definition mirrors one constant or handler of the source; machine
numbers are modelled as `Nat`/`Int`/`ℚ` (JavaScript numbers stay small and
exact here).
-/

namespace Dashboard

/-- A row of the fixed dataset: `{month, drug, deaths}` as built by
`overdoseData` in the source. -/
structure Row where
  month : String
  drug : String
  deaths : Nat
deriving DecidableEq, Repr

/-- `monthOrder` — the fixed ordered list of the twelve month identifiers. -/
def monthOrder : List String :=
  ["2024-01", "2024-02", "2024-03", "2024-04", "2024-05", "2024-06",
   "2024-07", "2024-08", "2024-09", "2024-10", "2024-11", "2024-12"]

/-- `series` — the fixed mapping from drug name to its 12 monthly counts,
in the object's insertion order (the order `Object.entries`/`Object.keys`
iterate in). -/
def series : List (String × List Nat) :=
  [("Fentanyl", [142, 151, 158, 161, 169, 176, 181, 187, 193, 199, 205, 212]),
   ("Heroin", [88, 91, 93, 95, 99, 103, 104, 108, 110, 111, 113, 115]),
   ("Prescription Opioids", [96, 98, 100, 102, 105, 108, 110, 111, 114, 116, 118, 120]),
   ("Cocaine", [74, 76, 79, 82, 84, 86, 89, 91, 94, 96, 99, 101]),
   ("Methamphetamine", [65, 67, 69, 72, 74, 76, 78, 81, 83, 85, 87, 90])]

/-- `drugs` — `Object.keys(series)`. -/
def drugs : List String := series.map Prod.fst

/-- `overdoseData` — `monthOrder.flatMap((month, idx) => Object.entries(series)
.map(([drug, values]) => ({month, drug, deaths: values[idx]})))`.
An out-of-range index would read `undefined` in JavaScript; every array has
exactly 12 entries so the `getD _ 0` default is never taken. -/
def overdoseData : List Row :=
  monthOrder.enum.flatMap (fun p =>
    series.map (fun dv => { month := p.2, drug := dv.1, deaths := dv.2.getD p.1 0 }))

/-- `filtered` — `overdoseData.filter((entry) => selectedDrugs.includes(entry.drug))`. -/
def filtered (selectedDrugs : List String) : List Row :=
  overdoseData.filter (fun entry => selectedDrugs.contains entry.drug)

/-- `grandTotal` — `filtered.reduce((sum, entry) => sum + entry.deaths, 0)`. -/
def grandTotal (selectedDrugs : List String) : Nat :=
  (filtered selectedDrugs).foldl (fun sum entry => sum + entry.deaths) 0

/-- `totalsByMonth` — one `{month, total}` pair per month of `monthOrder`,
`total` being `filtered.filter((entry) => entry.month === month)
.reduce((sum, entry) => sum + entry.deaths, 0)`. -/
def totalsByMonth (selectedDrugs : List String) : List (String × Nat) :=
  monthOrder.map (fun month =>
    (month,
     ((filtered selectedDrugs).filter (fun entry => entry.month == month)).foldl
       (fun sum entry => sum + entry.deaths) 0))

/-- `handleToggle` — remove the drug when present, append it otherwise:
`prev.includes(drug) ? prev.filter((d) => d !== drug) : [...prev, drug]`. -/
def handleToggle (prev : List String) (drug : String) : List String :=
  if prev.contains drug then prev.filter (fun d => d != drug) else prev ++ [drug]

/-- The "Select all" button — `setSelectedDrugs(drugs)`, ignoring the
previous selection. -/
def selectAll (_prev : List String) : List String := drugs

/-- The "Clear" button — `setSelectedDrugs([])`. -/
def clearSelection (_prev : List String) : List String := []

/-- The initial selection state — `useState(drugs)`. -/
def initialSelection : List String := drugs

/-- The sum of all literal death counts of the fixed series table
(all 60 entries of the five 12-element arrays). -/
def allDeathsTotal : Nat := (series.map (fun dv => dv.2.sum)).sum

/-- `Math.round` on an exact rational: round half toward positive
infinity, `⌊x + 1/2⌋`. -/
def jsRound (x : ℚ) : ℤ := ⌊x + 1 / 2⌋

/-- `avgMonthly` — `months.length ? Math.round(grandTotal / months.length) : 0`. -/
def avgMonthly (selectedDrugs : List String) : ℤ :=
  if monthOrder.length ≠ 0 then
    jsRound ((grandTotal selectedDrugs : ℚ) / (monthOrder.length : ℚ))
  else 0

/-! ## Chart geometry (`Chart` component) -/

/-- `margin.top` of the chart. -/
def marginTop : ℚ := 32

/-- `plotHeight = height - margin.top - margin.bottom = 420 - 32 - 72`. -/
def plotHeight : ℚ := 420 - 32 - 72

/-- The divisor of the y-scale: `maxValue > 0 ? maxValue : 1`. -/
def yDivisor (maxValue : ℚ) : ℚ := if maxValue > 0 then maxValue else 1

/-- `yPos` — `margin.top + plotHeight - (plotHeight * val) / (maxValue > 0 ?
maxValue : 1)`. -/
def yPos (maxValue val : ℚ) : ℚ :=
  marginTop + plotHeight - plotHeight * val / yDivisor maxValue

/-! ## Authentication gate (`App.jsx`) -/

/-- Result of one awaited call to the external identity service: it either
fulfils or rejects with a human-readable message (`err.message`). -/
inductive AuthResult where
  | success : AuthResult
  | rejected : String → AuthResult
deriving DecidableEq, Repr

/-- `handleRegister` — clears the error state, awaits
`createUserWithEmailAndPassword`, and on rejection stores `err.message`.
Returns the error state after the handler completes. -/
def handleRegister (_prevError : String) (res : AuthResult) : String :=
  match res with
  | .success => ""
  | .rejected msg => msg

/-- `handleLogin` — clears the error state, awaits
`signInWithEmailAndPassword`, and on rejection stores `err.message`.
Returns the error state after the handler completes. -/
def handleLogin (_prevError : String) (res : AuthResult) : String :=
  match res with
  | .success => ""
  | .rejected msg => msg

/-- `handleLogout` — `await signOut(auth)` with no `try`/`catch`: the error
state is never written, whether the call fulfils or rejects. Returns the
error state after the handler. -/
def handleLogout (prevError : String) (_res : AuthResult) : String :=
  prevError

/-! ## Helper lemmas -/

/-- Sum of the `deaths` fields of a list of rows. -/
def sumDeaths (l : List Row) : Nat := (l.map Row.deaths).sum

lemma foldl_add_deaths (l : List Row) (n : Nat) :
    l.foldl (fun sum entry => sum + entry.deaths) n = n + sumDeaths l := by
  induction l generalizing n with
  | nil => simp [sumDeaths]
  | cons r t ih => simp only [List.foldl_cons, ih, sumDeaths, List.map_cons,
      List.sum_cons]; omega

lemma grandTotal_eq_sumDeaths (sel : List String) :
    grandTotal sel = sumDeaths (filtered sel) := by
  simp [grandTotal, foldl_add_deaths]

lemma sumDeaths_filter_split (p : Row → Bool) (l : List Row) :
    sumDeaths l = sumDeaths (l.filter p) + sumDeaths (l.filter (fun r => !(p r))) := by
  induction l with
  | nil => rfl
  | cons r t ih =>
    cases hp : p r <;>
      simp [sumDeaths, List.filter_cons, hp] at ih ⊢ <;>
      omega

/-- Grouping a row list by a duplicate-free list of months that covers every
row reproduces the total sum. -/
lemma sum_grouped_by_month (ms : List String) (l : List Row)
    (hmem : ∀ r ∈ l, r.month ∈ ms) (hnd : ms.Nodup) :
    (ms.map (fun m => sumDeaths (l.filter (fun r => r.month == m)))).sum = sumDeaths l := by
  induction ms generalizing l with
  | nil =>
    cases l with
    | nil => rfl
    | cons r t => exact absurd (hmem r (by simp)) (by simp)
  | cons m ms ih =>
    rw [List.map_cons, List.sum_cons]
    have hsplit := sumDeaths_filter_split (fun r => r.month == m) l
    have hrest :
        (ms.map (fun m' => sumDeaths (l.filter (fun r => r.month == m')))).sum
          = sumDeaths (l.filter (fun r => !(r.month == m))) := by
      have hcongr : ∀ m' ∈ ms,
          sumDeaths (l.filter (fun r => r.month == m'))
            = sumDeaths ((l.filter (fun r => !(r.month == m))).filter
                (fun r => r.month == m')) := by
        intro m' hm'
        have hne : m' ≠ m := by
          rintro rfl
          exact (List.nodup_cons.mp hnd).1 hm'
        congr 1
        rw [List.filter_filter]
        apply List.filter_congr
        intro r _
        cases hr : (r.month == m') with
        | false => simp [hr]
        | true =>
          have hrm : r.month = m' := eq_of_beq hr
          simp [hr, hrm, hne]
      rw [List.map_congr_left hcongr]
      apply ih
      · intro r hr
        have h1 := List.mem_of_mem_filter hr
        have h2 := List.of_mem_filter hr
        have h3 := hmem r h1
        simp only [Bool.not_eq_true', beq_eq_false_iff_ne, ne_eq] at h2
        simpa [h2] using h3
      · exact (List.nodup_cons.mp hnd).2
    omega

lemma contains_eq_decide_mem (l : List String) (a : String) :
    l.contains a = decide (a ∈ l) := by
  simp [List.elem_eq_mem]

lemma months_cover : ∀ r ∈ overdoseData, r.month ∈ monthOrder := by decide

lemma monthOrder_nodup : monthOrder.Nodup := by decide

lemma grandTotal_drugs_val : grandTotal drugs = 6640 := by decide

lemma allDeathsTotal_val : allDeathsTotal = 6640 := by decide

/-! ## Claim theorems -/

/-- C1, counterexample: the claim "every rejection of each of the three
authentication operations is surfaced verbatim as the displayed error
string" fails for sign-out. `handleLogout` awaits `signOut` with no
`try`/`catch`, so a concrete rejection leaves the error display empty
instead of showing the rejection's message. -/
theorem logout_rejection_not_surfaced :
    handleLogout "" (AuthResult.rejected "auth/network-request-failed")
      ≠ "auth/network-request-failed" := by
  decide

/-- C1 (amended): rejections of the create-account and sign-in operations
are surfaced verbatim as the displayed error string for all inputs; a
rejection of the sign-out operation is not caught and leaves the displayed
error string unchanged. -/
theorem auth_rejections_surfaced (prevError msg : String) :
    handleRegister prevError (AuthResult.rejected msg) = msg ∧
    handleLogin prevError (AuthResult.rejected msg) = msg ∧
    handleLogout prevError (AuthResult.rejected msg) = prevError :=
  ⟨rfl, rfl, rfl⟩

/-- C2: for every selection state and every drug of the known set,
toggling the drug twice returns the selection to its original contents as
a set of drug names. -/
theorem toggle_twice_set_roundtrip (S : List String) (d : String)
    (_hd : d ∈ drugs) :
    (handleToggle (handleToggle S d) d).toFinset = S.toFinset := by
  ext x
  simp only [List.mem_toFinset]
  by_cases h : d ∈ S
  · have h1 : handleToggle S d = S.filter (fun y => y != d) := by
      simp [handleToggle, contains_eq_decide_mem, h]
    have h2 : handleToggle (S.filter (fun y => y != d)) d
        = S.filter (fun y => y != d) ++ [d] := by
      simp [handleToggle, contains_eq_decide_mem, List.mem_filter]
    rw [h1, h2]
    simp only [List.mem_append, List.mem_filter, List.mem_singleton,
      bne_iff_ne, ne_eq]
    constructor
    · rintro (⟨hxS, _⟩ | rfl)
      · exact hxS
      · exact h
    · intro hxS
      by_cases hx : x = d
      · exact Or.inr hx
      · exact Or.inl ⟨hxS, hx⟩
  · have h1 : handleToggle S d = S ++ [d] := by
      simp [handleToggle, contains_eq_decide_mem, h]
    have h2 : handleToggle (S ++ [d]) d = (S ++ [d]).filter (fun y => y != d) := by
      simp [handleToggle, contains_eq_decide_mem]
    rw [h1, h2]
    simp only [List.filter_append, List.mem_append, List.mem_filter,
      bne_iff_ne, ne_eq]
    constructor
    · rintro (⟨hxS, _⟩ | hx)
      · exact hxS
      · simp at hx
    · intro hxS
      left
      refine ⟨hxS, ?_⟩
      rintro rfl
      exact h hxS

/-- C2 witness: toggling "Fentanyl" twice on the selection ["Heroin"]. -/
theorem toggle_twice_set_roundtrip_check :
    "Fentanyl" ∈ drugs ∧
      (handleToggle (handleToggle ["Heroin"] "Fentanyl") "Fentanyl").toFinset
        = (["Heroin"] : List String).toFinset :=
  ⟨by decide, toggle_twice_set_roundtrip ["Heroin"] "Fentanyl" (by decide)⟩

/-- C3: for every selection set, the number of filtered rows equals the
number of dataset rows whose drug is a member of the selection. -/
theorem filtered_length_eq_matching_count (S : List String) :
    (filtered S).length = overdoseData.countP (fun r => decide (r.drug ∈ S)) := by
  rw [List.countP_eq_length_filter, filtered]
  congr 1
  apply List.filter_congr
  intro r _
  exact contains_eq_decide_mem S r.drug

/-- C4: for a positive supplied maximum, the y-scale maps the maximum to
the top of the plot area and 0 to the plot baseline. -/
theorem yScale_endpoints (maxValue : ℚ) (h : 0 < maxValue) :
    yPos maxValue maxValue = marginTop ∧
      yPos maxValue 0 = marginTop + plotHeight := by
  constructor
  · unfold yPos yDivisor
    rw [if_pos h, mul_div_assoc, div_self (ne_of_gt h), mul_one]
    ring
  · unfold yPos
    rw [mul_zero, zero_div, sub_zero]

/-- C4 witness: the endpoints at maximum 5. -/
theorem yScale_endpoints_check :
    (0 : ℚ) < 5 ∧
      (yPos 5 5 = marginTop ∧ yPos 5 0 = marginTop + plotHeight) :=
  ⟨by norm_num, yScale_endpoints 5 (by norm_num)⟩

/-- C5: the y-scale never divides by zero: its divisor is nonzero for
every supplied maximum, including 0 and negative values, and `yPos` is the
exact solution of the corresponding linear relation. -/
theorem yScale_total (maxValue val : ℚ) :
    yDivisor maxValue ≠ 0 ∧
      yPos maxValue val * yDivisor maxValue
        = (marginTop + plotHeight) * yDivisor maxValue - plotHeight * val := by
  have hne : yDivisor maxValue ≠ 0 := by
    unfold yDivisor
    split
    · exact ne_of_gt ‹_›
    · norm_num
  refine ⟨hne, ?_⟩
  unfold yPos
  field_simp

/-- C6: with the full selection, the grand total equals the sum of all 60
literal death counts of the series table. -/
theorem grandTotal_full_selection : grandTotal drugs = allDeathsTotal := by
  rw [grandTotal_drugs_val, allDeathsTotal_val]

/-- C7: with the full selection, the average-per-month statistic equals
the total of all death counts divided by 12 and rounded to the nearest
integer. -/
theorem avgMonthly_full_selection :
    avgMonthly drugs = jsRound ((allDeathsTotal : ℚ) / 12) := by
  rw [avgMonthly, if_pos (by decide), grandTotal_drugs_val, allDeathsTotal_val,
    show monthOrder.length = 12 from rfl]
  norm_num

/-- C8: "Select all" followed by "Clear", from any selection state, yields
an empty filtered row set and a grand total of 0. -/
theorem selectAll_then_clear (S : List String) :
    filtered (clearSelection (selectAll S)) = [] ∧
      grandTotal (clearSelection (selectAll S)) = 0 := by
  exact ⟨rfl, rfl⟩

/-- C9: starting from the initial selection (all known drugs), each
selection-mutating operation — toggling a known drug, "Select all",
"Clear" — keeps the selection a subset of the known drug names. -/
theorem selection_subset_invariant (S : List String) (d : String)
    (hS : S ⊆ drugs) (hd : d ∈ drugs) :
    initialSelection ⊆ drugs ∧ handleToggle S d ⊆ drugs ∧
      selectAll S ⊆ drugs ∧ clearSelection S ⊆ drugs := by
  refine ⟨fun x hx => hx, ?_, fun x hx => hx, fun x hx => absurd hx (List.not_mem_nil x)⟩
  unfold handleToggle
  split
  · exact fun x hx => hS (List.mem_of_mem_filter hx)
  · intro x hx
    rcases List.mem_append.mp hx with hxS | hxd
    · exact hS hxS
    · rw [List.mem_singleton.mp hxd]
      exact hd

/-- C9 witness: the invariant at the selection ["Heroin"] and the drug
"Cocaine". -/
theorem selection_subset_invariant_check :
    (["Heroin"] : List String) ⊆ drugs ∧ "Cocaine" ∈ drugs ∧
      (initialSelection ⊆ drugs ∧ handleToggle ["Heroin"] "Cocaine" ⊆ drugs ∧
        selectAll ["Heroin"] ⊆ drugs ∧ clearSelection ["Heroin"] ⊆ drugs) :=
  ⟨by decide, by decide,
    selection_subset_invariant ["Heroin"] "Cocaine" (by decide) (by decide)⟩

/-- C10: for every selection set, the sum of the twelve per-month totals
equals the grand total over the filtered rows. -/
theorem sum_month_totals_eq_grandTotal (S : List String) :
    ((totalsByMonth S).map Prod.snd).sum = grandTotal S := by
  rw [grandTotal_eq_sumDeaths, totalsByMonth, List.map_map]
  have hmap : (Prod.snd ∘ fun month =>
      (month,
       ((filtered S).filter (fun entry => entry.month == month)).foldl
         (fun sum entry => sum + entry.deaths) 0))
      = fun month => sumDeaths ((filtered S).filter (fun entry => entry.month == month)) := by
    funext month
    simp [foldl_add_deaths]
  rw [hmap]
  apply sum_grouped_by_month
  · intro r hr
    exact months_cover r (List.mem_of_mem_filter hr)
  · exact monthOrder_nodup

end Dashboard
